import Mathlib

/-!
Verification of the request-orchestration core of the image-question app:
the auto-complete suggestion controller (`useAutoComplete` in
`src/q2/src/hooks/useAutoComplete.ts`), the suggestion API route with its
tiered resolver (`generateSuggestions`, `callHuggingFaceModel`,
`getPatternBasedSuggestions`), the Gemini chat hook (`useGeminiChat`),
and the `/api/gemini` route (`POST` in `src/q2/src/app/api/gemini/route.ts`).

Each definition below is a shallow embedding of the corresponding
TypeScript function; asynchronous code is modelled by explicit state
passing over small event/trace types, with network effects reified as
action lists so that "no network activity" is a provable statement.
-/

/-- The `AutoCompleteState` record of `useAutoComplete.ts`
(`suggestions`, `isLoading`, `selectedIndex`, `showSuggestions`). -/
structure AutoCompleteState where
  suggestions : List String
  isLoading : Bool
  selectedIndex : Int
  showSuggestions : Bool
deriving Repr, DecidableEq

/-- The initial state of the hook (`useState` initializer). -/
def initialAutoCompleteState : AutoCompleteState :=
  { suggestions := [], isLoading := false, selectedIndex := -1, showSuggestions := false }

/-- Outcome of the `/api/suggestions` fetch inside `fetchSuggestions`:
`ok success suggestionsField` is a parsed JSON body (the `Option` is
`Array.isArray(data.suggestions)`); `error` is a thrown/network/non-ok
failure; `aborted` is an `AbortError` from `abortControllerRef.current.abort()`. -/
inductive FetchResult
  | ok (success : Bool) (suggestionsField : Option (List String))
  | error
  | aborted
deriving Repr, DecidableEq

/-- The `setState` applied when the fetch inside `fetchSuggestions` completes
(lines 68-96 of `useAutoComplete.ts`).  The success branch
(`data.success && Array.isArray(data.suggestions)`) installs the list and
resets `selectedIndex` to `-1`; the else branch and the catch branch
(including `AbortError`) clear `suggestions`, hide the list and stop the
spinner but leave `selectedIndex` untouched. -/
def applyFetchCompletion (st : AutoCompleteState) (r : FetchResult) : AutoCompleteState :=
  match r with
  | .ok true (some suggs) =>
      { st with suggestions := suggs, showSuggestions := decide (0 < suggs.length),
                selectedIndex := -1, isLoading := false }
  | .ok _ _ =>
      { st with suggestions := [], showSuggestions := false, isLoading := false }
  | .error =>
      { st with suggestions := [], showSuggestions := false, isLoading := false }
  | .aborted =>
      { st with suggestions := [], showSuggestions := false, isLoading := false }

/-- The short-text early return of `fetchSuggestions`
(lines 31-39: `!text || text.length < 3`). -/
def fetchSuggestionsShort (st : AutoCompleteState) : AutoCompleteState :=
  { st with suggestions := [], showSuggestions := false, isLoading := false }

/-- Keyboard direction argument of `navigateSuggestions`. -/
inductive Direction | up | down
deriving Repr, DecidableEq

/-- `navigateSuggestions` of `useAutoComplete.ts` (lines 113-132):
no-op unless the list is visible and non-empty; `down` increments until the
last index and then wraps to `-1`; `up` decrements from any index `> -1`
and wraps from `-1` to the last index. -/
def navigateSuggestions (st : AutoCompleteState) (d : Direction) : AutoCompleteState :=
  if st.showSuggestions = false ∨ st.suggestions.length = 0 then st
  else
    let len : Int := st.suggestions.length
    let newIndex : Int :=
      match d with
      | .down => if st.selectedIndex < len - 1 then st.selectedIndex + 1 else -1
      | .up => if st.selectedIndex > -1 then st.selectedIndex - 1 else len - 1
    { st with selectedIndex := newIndex }

/-- C7: for a visible non-empty list the selection cycles through
`{-1, 0, ..., n-1}` in both directions — `down` steps forward and wraps from
`n-1` to `-1` (not to `0`), `up` is the mirror — the index stays in range, and
navigation on an invisible or empty list is a no-op. -/
theorem navigateSuggestions_cyclic (st : AutoCompleteState) (d : Direction)
    (hvis : st.showSuggestions = true) (hpos : 0 < st.suggestions.length)
    (hlo : -1 ≤ st.selectedIndex) (hhi : st.selectedIndex < st.suggestions.length) :
    (navigateSuggestions st d).selectedIndex =
      (match d with
       | Direction.down =>
           if st.selectedIndex = (st.suggestions.length : Int) - 1 then -1
           else st.selectedIndex + 1
       | Direction.up =>
           if st.selectedIndex = -1 then (st.suggestions.length : Int) - 1
           else st.selectedIndex - 1) ∧
    -1 ≤ (navigateSuggestions st d).selectedIndex ∧
    (navigateSuggestions st d).selectedIndex < (st.suggestions.length : Int) ∧
    navigateSuggestions { st with showSuggestions := false } d =
      { st with showSuggestions := false } ∧
    navigateSuggestions { st with suggestions := [] } d =
      { st with suggestions := [] } := by
  have hne : ¬ (st.showSuggestions = false ∨ st.suggestions.length = 0) := by
    push_neg
    exact ⟨by simp [hvis], by omega⟩
  refine ⟨?_, ?_, ?_, ?_, ?_⟩
  · cases d <;> simp only [navigateSuggestions, if_neg hne] <;> split_ifs <;> omega
  · cases d <;> simp only [navigateSuggestions, if_neg hne] <;> split_ifs <;> omega
  · cases d <;> simp only [navigateSuggestions, if_neg hne] <;> split_ifs <;> omega
  · simp [navigateSuggestions]
  · simp [navigateSuggestions]

/-- Witness for C7 at the concrete state `⟨["a", "b"], false, -1, true⟩`
with direction `down`. -/
theorem navigateSuggestions_cyclic_witness :
    (navigateSuggestions ⟨["a", "b"], false, -1, true⟩ Direction.down).selectedIndex =
      (match Direction.down with
       | Direction.down =>
           if (-1 : Int) = ((["a", "b"] : List String).length : Int) - 1 then -1
           else (-1 : Int) + 1
       | Direction.up =>
           if (-1 : Int) = -1 then ((["a", "b"] : List String).length : Int) - 1
           else (-1 : Int) - 1) ∧
    -1 ≤ (navigateSuggestions ⟨["a", "b"], false, -1, true⟩ Direction.down).selectedIndex ∧
    (navigateSuggestions ⟨["a", "b"], false, -1, true⟩ Direction.down).selectedIndex <
      ((["a", "b"] : List String).length : Int) ∧
    navigateSuggestions ⟨["a", "b"], false, -1, false⟩ Direction.down =
      ⟨["a", "b"], false, -1, false⟩ ∧
    navigateSuggestions ⟨[], false, -1, true⟩ Direction.down =
      ⟨[], false, -1, true⟩ :=
  navigateSuggestions_cyclic ⟨["a", "b"], false, -1, true⟩ Direction.down rfl
    (by decide) (by decide) (by decide)

/-- C5 counterexample: a failed resolution applied to the state
`⟨["a","b","c"], true, 2, true⟩` mutates the items list (to `[]`) but leaves
`selectedIndex` at `2`, not `-1`, so "after any mutation of the items list,
selectedIndex equals -1" is false on the code. -/
theorem applyFetchCompletion_failure_keeps_selection :
    (applyFetchCompletion ⟨["a", "b", "c"], true, 2, true⟩ FetchResult.error).suggestions
      = [] ∧
    (applyFetchCompletion ⟨["a", "b", "c"], true, 2, true⟩ FetchResult.error).selectedIndex
      = 2 ∧
    (applyFetchCompletion ⟨["a", "b", "c"], true, 2, true⟩ FetchResult.error).selectedIndex
      ≠ -1 := by decide

/-- C5 amended: only a successful response (`data.success` with an array
field) resets the selection to `-1` when it installs the new items; the
failure and abort branches clear the items and hide the list but leave
`selectedIndex` unchanged. -/
theorem applyFetchCompletion_selection_reset (st : AutoCompleteState) (suggs : List String) :
    (applyFetchCompletion st (FetchResult.ok true (some suggs))).selectedIndex = -1 ∧
    (applyFetchCompletion st (FetchResult.ok true (some suggs))).suggestions = suggs ∧
    (applyFetchCompletion st FetchResult.error).suggestions = [] ∧
    (applyFetchCompletion st FetchResult.error).showSuggestions = false ∧
    (applyFetchCompletion st FetchResult.error).isLoading = false ∧
    (applyFetchCompletion st FetchResult.error).selectedIndex = st.selectedIndex ∧
    (applyFetchCompletion st FetchResult.aborted).selectedIndex = st.selectedIndex := by
  refine ⟨rfl, rfl, rfl, rfl, rfl, rfl, rfl⟩

/-- Debounce timing of `getSuggestions` (lines 100-110 of
`useAutoComplete.ts`): every call does `clearTimeout` on the pending timer
and schedules `fetchSuggestions(text)` 300 ms later.  Given the edit stream
as `(arrival time, text)` pairs, a timer set at time `t` survives (and so
fires `fetchSuggestions`) iff the next edit arrives at `t + 300` or later;
the timer set by the final edit always fires. -/
def firedTexts : List (Nat × String) → List String
  | [] => []
  | [e] => [e.2]
  | e :: e2 :: rest => (if e.1 + 300 ≤ e2.1 then [e.2] else []) ++ firedTexts (e2 :: rest)

/-- One fired resolution episode of `fetchSuggestions` (lines 24-97):
`abort` the previous in-flight request, `setState` with `isLoading := true`,
then the aborted request's catch clause runs (its rejection is delivered as
a microtask, before the new request's network response can arrive) and
clears the state, and finally the new request completes with `r`. -/
def fetchEpisode (st : AutoCompleteState) (inflight : Bool) (r : FetchResult) :
    AutoCompleteState :=
  let st1 := { st with isLoading := true }
  let st2 := if inflight then applyFetchCompletion st1 FetchResult.aborted else st1
  applyFetchCompletion st2 r

theorem firedTexts_burst : ∀ (edits : List (Nat × String)) (h1 : edits ≠ []),
    List.Chain' (fun a b => b.1 < a.1 + 300) edits →
    firedTexts edits = [(edits.getLast h1).2]
  | [], h1, _ => absurd rfl h1
  | [e], _, _ => by simp [firedTexts]
  | e :: e2 :: rest, _, h2 => by
      have hgap : e2.1 < e.1 + 300 := (List.chain'_cons.mp h2).1
      have htail := (List.chain'_cons.mp h2).2
      have hne : e2 :: rest ≠ [] := by simp
      have ih := firedTexts_burst (e2 :: rest) hne htail
      simp only [firedTexts, List.tail_cons, Nat.not_le.mpr hgap, if_false,
        List.nil_append, ih, List.getLast_cons hne]

/-- C2: in a burst of debounce-triggering edits arriving strictly less than
300 ms apart, only the final edit's timer survives, so exactly one
resolution is initiated — for the last text value — and after the episode
(the previous in-flight request aborted, its catch clause running before
the new response) the state holds exactly the last resolution's items, with
the spinner off and the selection reset. -/
theorem suggestion_burst_last_wins (edits : List (Nat × String))
    (st : AutoCompleteState) (inflight : Bool) (suggs : List String)
    (h1 : edits ≠ []) (h2 : List.Chain' (fun a b => b.1 < a.1 + 300) edits) :
    firedTexts edits = [(edits.getLast h1).2] ∧
    (fetchEpisode st inflight (FetchResult.ok true (some suggs))).suggestions = suggs ∧
    (fetchEpisode st inflight (FetchResult.ok true (some suggs))).isLoading = false ∧
    (fetchEpisode st inflight (FetchResult.ok true (some suggs))).selectedIndex = -1 ∧
    (fetchEpisode st inflight (FetchResult.ok true (some suggs))).showSuggestions =
      decide (0 < suggs.length) := by
  refine ⟨firedTexts_burst edits h1 h2, ?_, ?_, ?_, ?_⟩ <;>
    cases inflight <;> rfl

/-- Witness for C2: the burst `wha` at 0 ms, `what` at 100 ms, `what o` at
250 ms (gaps 100 and 150, both under 300) with an in-flight request fires a
single resolution, for `what o`, and its result is what the state shows. -/
theorem suggestion_burst_last_wins_witness :
    firedTexts [(0, "wha"), (100, "what"), (250, "what o")] =
      [([(0, "wha"), (100, "what"), (250, "what o")].getLast (by decide)).2] ∧
    (fetchEpisode initialAutoCompleteState true
        (FetchResult.ok true (some ["What objects are in this image?"]))).suggestions =
      ["What objects are in this image?"] ∧
    (fetchEpisode initialAutoCompleteState true
        (FetchResult.ok true (some ["What objects are in this image?"]))).isLoading = false ∧
    (fetchEpisode initialAutoCompleteState true
        (FetchResult.ok true (some ["What objects are in this image?"]))).selectedIndex = -1 ∧
    (fetchEpisode initialAutoCompleteState true
        (FetchResult.ok true (some ["What objects are in this image?"]))).showSuggestions =
      decide (0 < (["What objects are in this image?"] : List String).length) :=
  suggestion_burst_last_wins [(0, "wha"), (100, "what"), (250, "what o")]
    initialAutoCompleteState true ["What objects are in this image?"]
    (by decide) (by norm_num [List.chain'_cons, List.chain'_singleton])

/-- State of the suggestion controller as seen from `onTextChanged`
(`getSuggestions`): the hook state plus the pending debounce timer
(`debounceRef`), recording the text the scheduled `fetchSuggestions` call
will receive. -/
structure ControllerState where
  auto : AutoCompleteState
  pendingTimer : Option String
deriving Repr, DecidableEq

/-- `getSuggestions` (lines 100-110): synchronously it only does
`clearTimeout` + `setTimeout`, replacing the pending timer; the hook state
is not touched until the timer fires 300 ms later. -/
def getSuggestions (cs : ControllerState) (text : String) : ControllerState :=
  { cs with pendingTimer := some text }

/-- The pending timer firing, i.e. `fetchSuggestions` running with the
scheduled text (`inflight` says whether a previous request is still in
flight; it is aborted first, and its catch clause then also clears the
state).  Returns the new controller state and the list of network fetches
initiated: short text (`length < 3`) initiates none and clears the state;
otherwise the state enters loading and one fetch for `text` starts. -/
def fireDebounce (cs : ControllerState) (inflight : Bool) :
    ControllerState × List String :=
  match cs.pendingTimer with
  | none => (cs, [])
  | some text =>
    if text.length < 3 then
      let st1 := fetchSuggestionsShort cs.auto
      let st2 := if inflight then applyFetchCompletion st1 FetchResult.aborted else st1
      ({ auto := st2, pendingTimer := none }, [])
    else
      ({ auto := { cs.auto with isLoading := true }, pendingTimer := none }, [text])

/-- C6 counterexample: with a visible suggestion list, `onTextChanged`
with the 2-character text `ab` leaves the state untouched — the items are
still there and `showSuggestions` is still `true` immediately afterwards
(the clearing only happens 300 ms later when the debounce timer fires), so
"immediately clears the items, sets visible=false" is false on the code. -/
theorem short_text_clear_not_immediate :
    ("ab".length < 3) ∧
    (getSuggestions ⟨⟨["What objects are in this image?"], false, -1, true⟩, none⟩
        "ab").auto =
      ⟨["What objects are in this image?"], false, -1, true⟩ ∧
    (getSuggestions ⟨⟨["What objects are in this image?"], false, -1, true⟩, none⟩
        "ab").auto.showSuggestions = true := by
  refine ⟨by decide, rfl, rfl⟩

/-- C6 amended: the short-text handling is debounced, not immediate — when
the 300 ms timer fires with a text shorter than 3 characters, the run of
`fetchSuggestions` aborts any in-flight request, clears the items, sets
`visible = false` and `loading = false`, and initiates no network fetch. -/
theorem debounce_short_text_clears (cs : ControllerState) (inflight : Bool)
    (t : String) (hp : cs.pendingTimer = some t) (hlen : t.length < 3) :
    (fireDebounce cs inflight).2 = [] ∧
    (fireDebounce cs inflight).1.auto.suggestions = [] ∧
    (fireDebounce cs inflight).1.auto.showSuggestions = false ∧
    (fireDebounce cs inflight).1.auto.isLoading = false ∧
    (fireDebounce cs inflight).1.pendingTimer = none := by
  simp only [fireDebounce, hp, if_pos hlen]
  cases inflight <;>
    simp [fetchSuggestionsShort, applyFetchCompletion]

/-- Witness for C6 (amended) at the concrete controller state with pending
text `ab` and an in-flight request. -/
theorem debounce_short_text_clears_witness :
    (fireDebounce ⟨⟨["a"], true, 0, true⟩, some "ab"⟩ true).2 = [] ∧
    (fireDebounce ⟨⟨["a"], true, 0, true⟩, some "ab"⟩ true).1.auto.suggestions = [] ∧
    (fireDebounce ⟨⟨["a"], true, 0, true⟩, some "ab"⟩ true).1.auto.showSuggestions = false ∧
    (fireDebounce ⟨⟨["a"], true, 0, true⟩, some "ab"⟩ true).1.auto.isLoading = false ∧
    (fireDebounce ⟨⟨["a"], true, 0, true⟩, some "ab"⟩ true).1.pendingTimer = none :=
  debounce_short_text_clears ⟨⟨["a"], true, 0, true⟩, some "ab"⟩ true "ab" rfl (by decide)


/-- JS `String.prototype.toLowerCase` on the character list (ASCII, which
covers every string in the pattern table and the tested inputs). -/
def jsToLower (s : String) : String := String.mk (s.data.map Char.toLower)

/-- JS `String.prototype.startsWith`. -/
def jsStartsWith (s pre : String) : Bool := pre.data.isPrefixOf s.data

/-- Contiguous-substring test on character lists. -/
def charsInfix (pat : List Char) : List Char → Bool
  | [] => pat.isEmpty
  | c :: cs => pat.isPrefixOf (c :: cs) || charsInfix pat cs

/-- JS `String.prototype.includes`: the pattern occurs as a contiguous
substring. -/
def jsIncludes (s pat : String) : Bool := charsInfix pat.data s.data

/-- JS `String.prototype.trim` (ASCII whitespace at both ends). -/
def jsTrim (s : String) : String :=
  String.mk (((s.data.dropWhile Char.isWhitespace).reverse.dropWhile
    Char.isWhitespace).reverse)

/-- The fixed lead-word pattern table of `getPatternBasedSuggestions`
(the `patterns` object literal, entries in source order). -/
def patternTable : List (String × List String) :=
  [("what",
    ["What objects are in this image?",
     "What is the main subject of this image?",
     "What colors are most prominent?",
     "What is happening in this scene?",
     "What text can you read?"]),
   ("how",
    ["How many people are in this image?",
     "How many objects can you count?",
     "How would you describe the lighting?",
     "How old does this appear to be?"]),
   ("where",
    ["Where was this photo taken?",
     "Where is the main focus?",
     "Where do you see text?"]),
   ("describe",
    ["Describe the scene in detail",
     "Describe the main subject",
     "Describe the background",
     "Describe the colors and lighting"]),
   ("identify",
    ["Identify all objects in this image",
     "Identify the main subject",
     "Identify any text visible",
     "Identify the setting or location"]),
   ("count",
    ["Count the number of people",
     "Count the objects visible",
     "Count how many items you see"]),
   ("read",
    ["Read any text in this image",
     "Read the signs or labels",
     "Read what is written here"])]

/-- `getPatternBasedSuggestions` of the suggestions route: lower-case the
input; scan the table in order for the first key that is a leading part of
or occurs inside the input, and return that entry's canned questions
filtered to those starting with or containing the lowered input, capped at
3; if no key matches, synthesize three generic completions by appending
fixed suffixes to the input, filtered to at most 100 characters, capped
at 3. -/
def getPatternBasedSuggestions (text : String) : List String :=
  let lower := jsToLower text
  match patternTable.find? (fun p => jsStartsWith lower p.1 || jsIncludes lower p.1) with
  | some entry =>
      (entry.2.filter (fun s =>
        jsStartsWith (jsToLower s) lower || jsIncludes (jsToLower s) lower)).take 3
  | none =>
      ([text ++ " do you see in this image?",
        text ++ " is the main focus here?",
        text ++ " can you identify?"].filter (fun s => s.length ≤ 100)).take 3

/-- C4 counterexample: the 8-character input `whatever` matches the table
key `what`, but no canned `what`-question contains `whatever`, so the
pattern tier returns the empty list — refuting "the deterministic pattern
tier returns a non-empty list" for inputs of at least 3 characters. -/
theorem pattern_tier_empty_on_whatever :
    3 ≤ "whatever".length ∧ getPatternBasedSuggestions "whatever" = [] := by decide

/-- C4 amended: the pattern tier returns at most 3 suggestions, and the
spec's tested instance holds — on `what obj` it returns the non-empty list
`[What objects are in this image?]`, whose first entry starts with
`what obj` case-insensitively — but the blanket non-emptiness guarantee
does not: a lead-word match with no canned entry containing the input
(e.g. `whatever`) yields the empty list. -/
theorem pattern_tier_cap_and_what_obj (text : String) :
    (getPatternBasedSuggestions text).length ≤ 3 ∧
    getPatternBasedSuggestions "what obj" = ["What objects are in this image?"] ∧
    jsStartsWith (jsToLower "What objects are in this image?") "what obj" = true ∧
    getPatternBasedSuggestions "whatever" = [] := by
  refine ⟨?_, by decide, by decide, by decide⟩
  unfold getPatternBasedSuggestions
  dsimp only
  split <;> exact List.length_take_le 3 _

/-- C9: on `xyz123`, which matches no table key, the pattern tier returns
exactly the three synthesized completions, each beginning with the literal
input and each at most 100 characters long. -/
theorem pattern_tier_default_xyz123 :
    getPatternBasedSuggestions "xyz123" =
      ["xyz123 do you see in this image?",
       "xyz123 is the main focus here?",
       "xyz123 can you identify?"] ∧
    (getPatternBasedSuggestions "xyz123").length = 3 ∧
    (∀ s ∈ getPatternBasedSuggestions "xyz123",
      jsStartsWith s "xyz123" = true ∧ s.length ≤ 100) := by
  refine ⟨by decide, by decide, by decide⟩

/-- One element of the parsed Hugging Face response array: the optional
`generated_text` field. -/
structure HFEntry where
  generated_text : Option String
deriving Repr, DecidableEq

/-- The candidate list `callHuggingFaceModel` builds before filtering:
`data[0]?.generated_text ? [data[0].generated_text.trim()] : []` — a
singleton from the first element's `generated_text` when that field is
present and truthy (a non-empty string), else empty. -/
def hfBaseCandidates (dataArr : List HFEntry) : List String :=
  match dataArr.head? with
  | some entry =>
      match entry.generated_text with
      | some t => if t = "" then [] else [jsTrim t]
      | none => []
  | none => []

/-- The response processing of `callHuggingFaceModel`: the base candidates
filtered to those strictly longer than the input and at most 100
characters, capped at 3 (`.filter(...).slice(0, 3)`). -/
def huggingFaceSuggestions (dataArr : List HFEntry) (text : String) : List String :=
  ((hfBaseCandidates dataArr).filter
    (fun s => text.length < s.length && s.length ≤ 100)).take 3

theorem hfBaseCandidates_length_le_one (dataArr : List HFEntry) :
    (hfBaseCandidates dataArr).length ≤ 1 := by
  cases dataArr with
  | nil => simp [hfBaseCandidates]
  | cons e rest =>
    rcases he : e.generated_text with _ | t
    · simp [hfBaseCandidates, he]
    · by_cases ht : t = "" <;> simp [hfBaseCandidates, he, ht]

/-- C10: the remote inference tier builds its candidates from only the
first generated text of the response, so a single call yields at most one
suggestion, even though its cap is 3. -/
theorem huggingFace_at_most_one (dataArr : List HFEntry) (text : String) :
    (huggingFaceSuggestions dataArr text).length ≤ 1 := by
  unfold huggingFaceSuggestions
  have h1 : ((hfBaseCandidates dataArr).filter
      (fun s => text.length < s.length && s.length ≤ 100)).length ≤ 1 :=
    le_trans (List.length_filter_le _ _) (hfBaseCandidates_length_le_one dataArr)
  rw [List.length_take]
  omega

/-- The `ChatState` record of `useGeminiChat.ts` (`result`, `isLoading`,
`error`; the `string | null` fields as `Option String`). -/
structure ChatState where
  result : Option String
  isLoading : Bool
  error : Option String
deriving Repr, DecidableEq

/-- The idle chat state (`useState` initializer, also installed by
`handleImageSelect` / `handleImageClear`). -/
def idleChatState : ChatState := { result := none, isLoading := false, error := none }

/-- The `ImageData` record of `useGeminiChat.ts`: `isFile` is the presence
of the `file` field (a `File` object is always truthy), `url` the optional
URL string, `preview` the preview payload (a base64 data URI for files,
the URL itself for URLs) that `currentImage` is set to. -/
structure ImageData where
  isFile : Bool
  url : Option String
  preview : String
deriving Repr, DecidableEq

/-- The parsed JSON body of a `/api/gemini` response
(`{success, data?, error?}`). -/
structure ApiResponse where
  success : Bool
  data : Option String
  error : Option String
deriving Repr, DecidableEq

/-- JS `x || fallback` on an optional string field: `undefined` and the
empty string are falsy. -/
def jsOrElse (s : Option String) (fallback : String) : String :=
  match s with
  | some v => if v = "" then fallback else v
  | none => fallback

/-- The `setChatState` applied from the `/api/gemini` response inside
`askQuestion` (lines 297-309): success installs `data.data`, failure
installs `data.error || 'Failed to analyze image'`. -/
def applyBackendResponse (r : ApiResponse) : ChatState :=
  if r.success then { result := r.data, isLoading := false, error := none }
  else { result := none, isLoading := false,
         error := some (jsOrElse r.error "Failed to analyze image") }

/-- Network actions `askQuestion` can perform, in order: fetching the
bytes of a URL-kind image, and POSTing `{image, question}` to the
`/api/gemini` backend route. -/
inductive NetAction
  | fetchImageUrl (location : String)
  | postGemini (image : String) (question : String)
deriving Repr, DecidableEq

/-- `askQuestion` of `useGeminiChat.ts` (lines 243-318) as a function of
the captured hook state, the environment (`urlFetch`: the outcome of
fetching a URL's bytes as a base64 payload, `none` on failure) and the
parsed `/api/gemini` response; returns the final `ChatState` together with
the list of network actions performed.  With no image selected it returns
an error without touching the network; a file-kind image uses the already
computed `currentImage` payload; a url-kind image is fetched at ask time
and a fetch failure throws `Failed to fetch image from URL`, skipping the
backend call; otherwise `{image, question: question.trim()}` is posted. -/
def askQuestion (prev : ChatState) (imageData : Option ImageData)
    (currentImage : Option String) (question : String)
    (urlFetch : String → Option String) (backend : ApiResponse) :
    ChatState × List NetAction :=
  match imageData, currentImage with
  | some img, some cur =>
    if cur = "" then ({ prev with error := some "Please select an image first" }, [])
    else if img.isFile then
      (applyBackendResponse backend, [NetAction.postGemini cur (jsTrim question)])
    else
      match img.url with
      | some u =>
        if u = "" then
          (applyBackendResponse backend, [NetAction.postGemini cur (jsTrim question)])
        else
          match urlFetch u with
          | some bytes =>
            (applyBackendResponse backend,
              [NetAction.fetchImageUrl u, NetAction.postGemini bytes (jsTrim question)])
          | none =>
            ({ result := none, isLoading := false,
               error := some "Failed to fetch image from URL" },
              [NetAction.fetchImageUrl u])
      | none => (applyBackendResponse backend, [NetAction.postGemini cur (jsTrim question)])
  | _, _ => ({ prev with error := some "Please select an image first" }, [])

/-- Result of the `/api/gemini` route `POST` handler: the JSON body sent
back, the HTTP status, and whether `callGeminiVision` was invoked. -/
structure RouteResult where
  response : ApiResponse
  status : Nat
  geminiCalled : Bool
deriving Repr, DecidableEq

/-- `POST` of `src/q2/src/app/api/gemini/route.ts` (string-typed inputs):
reject a missing/empty image or question with 400
`Image and question are required`; reject a question over 500 characters
with 400 `Question too long (max 500 characters)`; otherwise forward to
`callGeminiVision`, returning its result with status 200 on success and
500 on failure. -/
def routePOST (image question : String) (gemini : ApiResponse) : RouteResult :=
  if image = "" ∨ question = "" then
    { response := { success := false, data := none,
                    error := some "Image and question are required" },
      status := 400, geminiCalled := false }
  else if 500 < question.length then
    { response := { success := false, data := none,
                    error := some "Question too long (max 500 characters)" },
      status := 400, geminiCalled := false }
  else if gemini.success then
    { response := gemini, status := 200, geminiCalled := true }
  else
    { response := gemini, status := 500, geminiCalled := true }

/-- C3 counterexample: with a file image selected and the question `"   "`
(empty after trimming), `askQuestion` does not fail fast — it POSTs the
trimmed (empty) question to the `/api/gemini` backend route, so network
activity occurs; the claim that an empty-after-trimming question is
rejected before any network activity is false on the code. -/
theorem ask_empty_question_posts_to_backend :
    jsTrim "   " = "" ∧
    (askQuestion idleChatState (some ⟨true, none, "data:image/png;base64,AAAA"⟩)
        (some "data:image/png;base64,AAAA") "   " (fun _ => none)
        ⟨false, none, some "Image and question are required"⟩).2 =
      [NetAction.postGemini "data:image/png;base64,AAAA" ""] ∧
    (askQuestion idleChatState (some ⟨true, none, "data:image/png;base64,AAAA"⟩)
        (some "data:image/png;base64,AAAA") "   " (fun _ => none)
        ⟨false, none, some "Image and question are required"⟩).2 ≠ [] := by
  refine ⟨by decide, by decide, by decide⟩

/-- C3 amended: `ask` fails fast with an error result and no network
activity only when no image is set; the question checks live elsewhere —
an empty-after-trimming or over-500-character question is still POSTed
(trimmed) to the `/api/gemini` route, which rejects it with a 400
(`Image and question are required` / `Question too long (max 500
characters)`) before invoking the Gemini vision backend. -/
theorem ask_validation_split (prev : ChatState) (q img cur : String)
    (f : String → Option String) (backend g : ApiResponse)
    (himg : img ≠ "") (hcur : cur ≠ "") (hq : 500 < q.length) :
    askQuestion prev none none q f backend =
      ({ prev with error := some "Please select an image first" }, []) ∧
    (askQuestion prev (some ⟨true, none, cur⟩) (some cur) q f backend).2 =
      [NetAction.postGemini cur (jsTrim q)] ∧
    (routePOST img "" g).geminiCalled = false ∧
    (routePOST img "" g).response.error = some "Image and question are required" ∧
    (routePOST img "" g).status = 400 ∧
    (routePOST img q g).geminiCalled = false ∧
    (routePOST img q g).response.error = some "Question too long (max 500 characters)" ∧
    (routePOST img q g).status = 400 := by
  have hroute : ¬ (img = "" ∨ q = "") := by
    push_neg
    exact ⟨himg, by intro h; rw [h] at hq; simp at hq⟩
  have hroute2 : ¬ (img = "" ∨ ("" : String) = "") → False := fun h => h (Or.inr rfl)
  refine ⟨rfl, ?_, ?_, ?_, ?_, ?_, ?_, ?_⟩
  · simp [askQuestion, hcur]
  · simp [routePOST]
  · simp [routePOST]
  · simp [routePOST]
  · simp [routePOST, hroute, hq]
  · simp [routePOST, hroute, hq]
  · simp [routePOST, hroute, hq]

/-- Witness for C3 (amended) at a concrete 501-character question, a file
image and an unused backend response. -/
theorem ask_validation_split_witness :
    askQuestion idleChatState none none (String.mk (List.replicate 501 'a'))
        (fun _ => none) ⟨true, some "ok", none⟩ =
      ({ idleChatState with error := some "Please select an image first" }, []) ∧
    (askQuestion idleChatState (some ⟨true, none, "data:image/png;base64,AAAA"⟩)
        (some "data:image/png;base64,AAAA") (String.mk (List.replicate 501 'a'))
        (fun _ => none) ⟨true, some "ok", none⟩).2 =
      [NetAction.postGemini "data:image/png;base64,AAAA"
        (jsTrim (String.mk (List.replicate 501 'a')))] ∧
    (routePOST "img" "" ⟨true, some "ok", none⟩).geminiCalled = false ∧
    (routePOST "img" "" ⟨true, some "ok", none⟩).response.error =
      some "Image and question are required" ∧
    (routePOST "img" "" ⟨true, some "ok", none⟩).status = 400 ∧
    (routePOST "img" (String.mk (List.replicate 501 'a'))
        ⟨true, some "ok", none⟩).geminiCalled = false ∧
    (routePOST "img" (String.mk (List.replicate 501 'a'))
        ⟨true, some "ok", none⟩).response.error =
      some "Question too long (max 500 characters)" ∧
    (routePOST "img" (String.mk (List.replicate 501 'a'))
        ⟨true, some "ok", none⟩).status = 400 :=
  ask_validation_split idleChatState (String.mk (List.replicate 501 'a'))
    "img" "data:image/png;base64,AAAA" (fun _ => none) ⟨true, some "ok", none⟩
    ⟨true, some "ok", none⟩ (by decide) (by decide)
    (by norm_num [String.length, List.length_replicate])

/-- C8 counterexample: on a url-kind image whose fetch fails, the error
message the code installs is `Failed to fetch image from URL` (capital F),
which is not the claimed string `failed to fetch image from URL`. -/
theorem ask_url_failure_message_capitalized :
    (askQuestion idleChatState
        (some ⟨false, some "https://example.com/cat.jpg", "https://example.com/cat.jpg"⟩)
        (some "https://example.com/cat.jpg") "What is this?" (fun _ => none)
        ⟨true, some "an answer", none⟩).1.error =
      some "Failed to fetch image from URL" ∧
    (askQuestion idleChatState
        (some ⟨false, some "https://example.com/cat.jpg", "https://example.com/cat.jpg"⟩)
        (some "https://example.com/cat.jpg") "What is this?" (fun _ => none)
        ⟨true, some "an answer", none⟩).1.error ≠
      some "failed to fetch image from URL" := by
  refine ⟨by decide, by decide⟩

/-- C8 amended: for every `ask` on a url-kind image whose fetch fails, the
result is an error with message `Failed to fetch image from URL` (capital
F, otherwise as claimed), the only network action is the image-URL fetch —
no backend call is made — and canonicalization is indeed deferred to
ask-time: the URL fetch appears in `ask`'s own action list. -/
theorem ask_url_failure_no_backend (prev : ChatState) (u p q : String)
    (f : String → Option String) (backend : ApiResponse)
    (hp : p ≠ "") (hu : u ≠ "") (hf : f u = none) :
    askQuestion prev (some ⟨false, some u, p⟩) (some p) q f backend =
      ({ result := none, isLoading := false,
         error := some "Failed to fetch image from URL" },
        [NetAction.fetchImageUrl u]) := by
  simp [askQuestion, hp, hu, hf]

/-- Witness for C8 (amended) at a concrete URL whose fetch fails. -/
theorem ask_url_failure_no_backend_witness :
    askQuestion idleChatState
        (some ⟨false, some "https://example.com/cat.jpg", "https://example.com/cat.jpg"⟩)
        (some "https://example.com/cat.jpg") "What is this?" (fun _ => none)
        ⟨true, some "an answer", none⟩ =
      ({ result := none, isLoading := false,
         error := some "Failed to fetch image from URL" },
        [NetAction.fetchImageUrl "https://example.com/cat.jpg"]) :=
  ask_url_failure_no_backend idleChatState "https://example.com/cat.jpg"
    "https://example.com/cat.jpg" "What is this?" (fun _ => none)
    ⟨true, some "an answer", none⟩ (by decide) (by decide) rfl

/-- The whole `useGeminiChat` hook state, instrumented with a ghost
`generation` counter (the spec's "ImageRef generation": incremented at
each `handleImageSelect` / `handleImageClear`; the TypeScript code keeps
no such counter, the field only serves to state staleness) and with the
in-flight ask recorded as the generation current when it started together
with its question. -/
structure GeminiHookState where
  chat : ChatState
  imageData : Option ImageData
  currentImage : Option String
  generation : Nat
  pending : Option (Nat × String)
deriving Repr, DecidableEq

/-- The initial hook state. -/
def initialGeminiHookState : GeminiHookState :=
  { chat := idleChatState, imageData := none, currentImage := none,
    generation := 0, pending := none }

/-- Events of one `useGeminiChat` execution: image selection and clearing
(`handleImageSelect` / `handleImageClear`), the synchronous part of
`askQuestion` up to its suspension point (file-kind image, so no URL
fetch), and the arrival of the `/api/gemini` response for the in-flight
ask. -/
inductive ChatEvent
  | selectImage (img : ImageData)
  | clearImage
  | askStart (question : String)
  | askComplete (resp : ApiResponse)
deriving Repr, DecidableEq

/-- One step of `useGeminiChat`: `selectImage`/`clearImage` replace the
image wholesale and reset the chat state to idle (and bump the ghost
generation); `askStart` records the error when no image is set, else
enters loading and records the in-flight ask; `askComplete` applies the
response via `setChatState` unconditionally — the code performs no
generation or identity comparison on arrival. -/
def chatStep (st : GeminiHookState) (e : ChatEvent) : GeminiHookState :=
  match e with
  | .selectImage img =>
      { st with chat := idleChatState, imageData := some img,
                currentImage := some img.preview,
                generation := st.generation + 1 }
  | .clearImage =>
      { st with chat := idleChatState, imageData := none, currentImage := none,
                generation := st.generation + 1 }
  | .askStart q =>
      match st.imageData, st.currentImage with
      | some _, some cur =>
          if cur = "" then
            { st with chat := { st.chat with error := some "Please select an image first" } }
          else
            { st with chat := { result := none, isLoading := true, error := none },
                      pending := some (st.generation, q) }
      | _, _ =>
          { st with chat := { st.chat with error := some "Please select an image first" } }
  | .askComplete resp =>
      match st.pending with
      | some _ => { st with chat := applyBackendResponse resp, pending := none }
      | none => st

/-- Running `useGeminiChat` over an event trace. -/
def chatRun (es : List ChatEvent) : GeminiHookState :=
  es.foldl chatStep initialGeminiHookState

/-- The C1 failing trace: select image A, ask a question, select image B
while the ask is in flight, then A's answer arrives. -/
def staleResultTrace : List ChatEvent :=
  [ChatEvent.selectImage ⟨true, none, "data:image/png;base64,AAAA"⟩,
   ChatEvent.askStart "What objects are in this image?",
   ChatEvent.selectImage ⟨true, none, "data:image/png;base64,BBBB"⟩,
   ChatEvent.askComplete ⟨true, some "There is a red apple.", none⟩]

/-- C1 is violated by the code: on the trace select A / ask / select B /
answer-for-A-arrives, the in-flight ask originated at generation 1 while
the current generation at arrival is 2 — yet the arriving result is not
discarded: `QueryResult` is mutated from the idle state installed by the
second selection to a success holding image A's answer. -/
theorem stale_result_applied_despite_generation_mismatch :
    (chatRun (staleResultTrace.take 3)).pending =
      some (1, "What objects are in this image?") ∧
    (chatRun (staleResultTrace.take 3)).generation = 2 ∧
    (chatRun (staleResultTrace.take 3)).chat = idleChatState ∧
    (chatRun staleResultTrace).chat.result = some "There is a red apple." ∧
    (chatRun staleResultTrace).chat ≠ (chatRun (staleResultTrace.take 3)).chat := by
  refine ⟨by decide, by decide, by decide, by decide, by decide⟩
